import Mathlib

/-!
Verification of the route-calculator service (`app/main.py`, `app/models.py`,
`app/services.py`) against its natural-language specification.

The Python code is shallowly embedded: pure helpers become Lean functions,
Python floats become exact rationals (`ℚ`), the external HTTP providers become
explicit oracle parameters, raised exceptions become `Except` values, and the
observable outbound network traffic of the request handler is recorded in an
explicit call list.
-/

/-- The six structured address fields of an inbound location
(`LocationRequest` in `app/models.py`); pydantic validates them as strings.
A Python string is "truthy" exactly when it is non-empty, which is how
`compose_address` tests presence of a field. -/
structure LocationRequest where
  HSNMR : String
  STRAS : String
  LOCAT : String
  PSTLZ : String
  ORT01 : String
  LAND1 : String
deriving DecidableEq, Repr

/-- An inbound request body (`RouteRequest` in `app/models.py`). -/
structure RouteRequest where
  home : LocationRequest
  office : LocationRequest
deriving DecidableEq, Repr

/-- A latitude/longitude pair (`Coordinates` in `app/models.py`). -/
structure Coordinates where
  latitude : ℚ
  longitude : ℚ
deriving DecidableEq, Repr

/-- First block of `compose_address` (`app/main.py`): house number and street.
`if HSNMR and STRAS: append HSNMR+" "+STRAS / elif STRAS / elif HSNMR`. -/
def housePart (l : LocationRequest) : List String :=
  if l.HSNMR ≠ "" ∧ l.STRAS ≠ "" then [l.HSNMR ++ " " ++ l.STRAS]
  else if l.STRAS ≠ "" then [l.STRAS]
  else if l.HSNMR ≠ "" then [l.HSNMR]
  else []

/-- Second block of `compose_address`: the location complement, when present. -/
def locatPart (l : LocationRequest) : List String :=
  if l.LOCAT ≠ "" then [l.LOCAT] else []

/-- Third block of `compose_address`: postal code and city.
`if PSTLZ and ORT01: append PSTLZ+" "+ORT01 / elif ORT01: append ORT01`.
Note there is no `elif PSTLZ` branch in the source: a postal code whose
city field is empty is dropped. -/
def postalCityPart (l : LocationRequest) : List String :=
  if l.PSTLZ ≠ "" ∧ l.ORT01 ≠ "" then [l.PSTLZ ++ " " ++ l.ORT01]
  else if l.ORT01 ≠ "" then [l.ORT01]
  else []

/-- Fourth block of `compose_address`: the country, when present. -/
def countryPart (l : LocationRequest) : List String :=
  if l.LAND1 ≠ "" then [l.LAND1] else []

/-- The `address_parts` list accumulated by `compose_address` in
`app/main.py`: the four blocks are appended in source order. -/
def address_parts (l : LocationRequest) : List String :=
  housePart l ++ locatPart l ++ postalCityPart l ++ countryPart l

/-- Python's `", ".join`. -/
def joinComma : List String → String
  | [] => ""
  | [p] => p
  | p :: q :: ps => p ++ ", " ++ joinComma (q :: ps)

/-- `compose_address` from `app/main.py`: build the fragment list and join
the fragments with `", "`. -/
def compose_address (l : LocationRequest) : String :=
  joinComma (address_parts l)

/-- One geocoding candidate of the provider's JSON array; the provider
serialises `lat`/`lon` as strings, which the code parses with `float`. -/
structure GeoCandidate where
  lat : String
  lon : String
deriving DecidableEq, Repr

/-- The observable behaviours of the geocoding provider for one lookup:
a transport error, a non-success HTTP status (raised by
`raise_for_status`), a body that fails JSON parsing, or a parsed JSON
candidate list. -/
inductive GeoProviderResult where
  | transportError (msg : String)
  | badStatus (code : Nat)
  | malformedBody
  | json (candidates : List GeoCandidate)
deriving DecidableEq, Repr

/-- The body of `GeocodingService.geocode` (`app/services.py`) up to but not
including its `try/except`: every Python exception becomes an `Except.error`.
`pyFloat` is Python's `float` string parser, `none` modelling the
`ValueError` it raises on an unparseable string. On a non-empty candidate
list the code returns the first candidate's parsed `lat`/`lon`; on an empty
list it returns `(None, None)`. -/
def geocode_except (pyFloat : String → Option ℚ) :
    GeoProviderResult → Except String (Option ℚ × Option ℚ)
  | .transportError m => .error m
  | .badStatus c => .error ("HTTP status error " ++ toString c)
  | .malformedBody => .error "JSON decode error"
  | .json [] => .ok (none, none)
  | .json (c :: _) =>
    match pyFloat c.lat, pyFloat c.lon with
    | some la, some lo => .ok (some la, some lo)
    | _, _ => .error "could not convert string to float"

/-- `GeocodingService.geocode`: the `try/except` wrapper maps every raised
exception to `(None, None)`. -/
def geocode (pyFloat : String → Option ℚ) (r : GeoProviderResult) :
    Option ℚ × Option ℚ :=
  match geocode_except pyFloat r with
  | .ok v => v
  | .error _ => (none, none)

/-- The observable behaviours of the routing provider for one request:
transport error, non-success HTTP status, malformed JSON body, a JSON body
without a `"routes"` key, or a routes array given by the
`summary.distance` value (in meters) of each route. -/
inductive RouteProviderResult where
  | transportError (msg : String)
  | badStatus (code : Nat)
  | malformedBody
  | noRoutesField
  | json (routes : List ℚ)
deriving DecidableEq, Repr

/-- Python's built-in `round` on a rational argument: nearest integer,
ties to even (banker's rounding). This models CPython's `round` exactly on
arguments whose value the binary double represents exactly (dyadic
rationals); CPython otherwise rounds the nearest-double approximation of
the argument, which an exact-rational embedding cannot express. -/
def roundHalfEven (q : ℚ) : ℤ :=
  if Int.fract q < 1/2 then ⌊q⌋
  else if 1/2 < Int.fract q then ⌊q⌋ + 1
  else if ⌊q⌋ % 2 = 0 then ⌊q⌋
  else ⌊q⌋ + 1

/-- Python's `round(q, 2)`: round to two decimal places, ties to even. -/
def pythonRound2 (q : ℚ) : ℚ :=
  (roundHalfEven (q * 100) : ℚ) / 100

/-- Modelled from the spec: the spec's words "rounding half-up at 2
decimals" (§8 of the specification), written independently of the source so
that the source's rounding can be compared against it. Half-up sends a tie
at the third decimal away from zero upward: `⌊q·100 + 1/2⌋ / 100`. -/
def roundHalfUp2 (q : ℚ) : ℚ :=
  ((⌊q * 100 + 1/2⌋ : ℤ) : ℚ) / 100

/-- The JSON `"coordinates"` body that `RoutingService.calculate_distance`
posts to the routing provider (`app/services.py`): each `(lat, lon)` input
pair is emitted as `[lon, lat]`. -/
def routeRequestCoordinates (s e : ℚ × ℚ) : List (List ℚ) :=
  [[s.2, s.1], [e.2, e.1]]

/-- `RoutingService.calculate_distance`: post the reversed coordinate pairs,
and on a response with at least one route convert its first route's
`summary.distance` from meters to kilometers with `round(·, 2)`. A missing
`"routes"` key or an empty routes array returns `None`; every raised
exception (transport, HTTP status, JSON parse) is caught by the
`try/except` and also yields `None`. -/
def calculate_distance (provider : List (List ℚ) → RouteProviderResult)
    (s e : ℚ × ℚ) : Option ℚ :=
  match provider (routeRequestCoordinates s e) with
  | .json (d :: _) => some (pythonRound2 (d / 1000))
  | .json [] => none
  | .noRoutesField => none
  | .transportError _ => none
  | .badStatus _ => none
  | .malformedBody => none

/-- Outcome of reading and validating the inbound request body in
`calculate_route` (`app/main.py`): `noData` when `request.get_json()`
yields nothing usable (missing or unparseable body, or a falsy value, the
`if not data` check), `invalidShape` when `RouteRequest(**data)` raises a
validation error with message `err`, `valid` otherwise. -/
inductive InboundBody where
  | noData
  | invalidShape (err : String)
  | valid (req : RouteRequest)
deriving DecidableEq, Repr

/-- An outbound network call issued while handling one request. -/
inductive OutboundCall where
  | geocodeCall (address : String)
  | routeCall (origin dest : ℚ × ℚ)
deriving DecidableEq, Repr

/-- The per-location echo in a success response body: the six original
fields, the composed address, and the geocoded coordinates. -/
structure LocationEcho where
  fields : LocationRequest
  address : String
  latitude : ℚ
  longitude : ℚ
deriving DecidableEq, Repr

/-- The `data` object of a success response. -/
structure RouteData where
  home : LocationEcho
  office : LocationEcho
  distance : ℚ
deriving DecidableEq, Repr

/-- The response envelope (`RouteResponse` in `app/models.py`): a status
tag, an optional error message, an optional data object, and the
`metadata.timestamp` string. -/
structure RouteResponse where
  status : String
  error : Option String
  data : Option RouteData
  metadata : String
deriving DecidableEq, Repr

/-- What one invocation of the request handler produces: the response
envelope, the HTTP status code, and the outbound calls issued, in order. -/
structure HandlerResult where
  response : RouteResponse
  httpCode : Nat
  calls : List OutboundCall
deriving DecidableEq, Repr

/-- The `/calculate-route` handler `calculate_route` (`app/main.py`).
`geo` is `geocoding_service.geocode` as a per-address oracle and `route`
is `routing_service.calculate_distance` as an oracle over `(lat, lon)`
pairs; `now` is `datetime.utcnow().isoformat()`. The three `raise
ValueError(...)` statements are caught by the handler's own
`except ValueError` clause, which returns an error envelope carrying
`str(e)` with HTTP 400; the net effect of each raise is therefore the
error result built here. The posted body and its 10-second timeout are
transport details carried by the oracles. -/
def calculate_route (geo : String → Option ℚ × Option ℚ)
    (route : ℚ × ℚ → ℚ × ℚ → Option ℚ) (now : String) :
    InboundBody → HandlerResult
  | .noData =>
    ⟨⟨"error", some "No JSON data provided", none, now⟩, 400, []⟩
  | .invalidShape err =>
    ⟨⟨"error", some ("Invalid request data: " ++ err), none, now⟩, 400, []⟩
  | .valid req =>
    let homeAddress := compose_address req.home
    let officeAddress := compose_address req.office
    match geo homeAddress with
    | (some homeLat, some homeLon) =>
      match geo officeAddress with
      | (some officeLat, some officeLon) =>
        match route (homeLat, homeLon) (officeLat, officeLon) with
        | some dist =>
          ⟨⟨"success", none,
            some ⟨⟨req.home, homeAddress, homeLat, homeLon⟩,
                  ⟨req.office, officeAddress, officeLat, officeLon⟩, dist⟩,
            now⟩, 200,
           [.geocodeCall homeAddress, .geocodeCall officeAddress,
            .routeCall (homeLat, homeLon) (officeLat, officeLon)]⟩
        | none =>
          ⟨⟨"error", some "Could not calculate route between addresses",
            none, now⟩, 400,
           [.geocodeCall homeAddress, .geocodeCall officeAddress,
            .routeCall (homeLat, homeLon) (officeLat, officeLon)]⟩
      | _ =>
        ⟨⟨"error", some ("Could not geocode office address: " ++ officeAddress),
          none, now⟩, 400,
         [.geocodeCall homeAddress, .geocodeCall officeAddress]⟩
    | _ =>
      ⟨⟨"error", some ("Could not geocode home address: " ++ homeAddress),
        none, now⟩, 400,
       [.geocodeCall homeAddress]⟩

/-- A Python exception reaching the handler's outer `try`:
either a `ValueError` carrying `str(e)`, or an exception of any other
type (`excType`) carrying its own message. -/
inductive PyExc where
  | valueError (msg : String)
  | otherExc (excType : String) (msg : String)
deriving DecidableEq, Repr

/-- The two `except` clauses at the end of `calculate_route`
(`app/main.py`): `except ValueError as e` returns an error envelope with
`str(e)` and HTTP 400; `except Exception` returns the generic
"An unexpected error occurred" envelope with HTTP 500. The dispatch is by
exception type only. -/
def handle_exception (now : String) : PyExc → RouteResponse × Nat
  | .valueError m => (⟨"error", some m, none, now⟩, 400)
  | .otherExc _ _ =>
    (⟨"error", some "An unexpected error occurred", none, now⟩, 500)

/-- The three anticipated stage failures of the orchestrator: the
`ValueError`s raised for a failed home geocode, a failed office geocode,
and a failed route calculation. -/
def anticipatedStageFailure (e : PyExc) : Prop :=
  match e with
  | .valueError m =>
    (∃ a, m = "Could not geocode home address: " ++ a) ∨
    (∃ a, m = "Could not geocode office address: " ++ a) ∨
    m = "Could not calculate route between addresses"
  | .otherExc _ _ => False

/-! ### The comma-space join at the level of character lists -/

/-- The separator `", "` as a character list. -/
def sepL : List Char := [',', ' ']

/-- Python's `", ".join` at the level of character lists. -/
def joinCommaL : List (List Char) → List Char
  | [] => []
  | [p] => p
  | p :: q :: ps => p ++ sepL ++ joinCommaL (q :: ps)

theorem joinComma_data :
    ∀ ps : List String, (joinComma ps).data = joinCommaL (ps.map String.data)
  | [] => rfl
  | [_] => rfl
  | p :: q :: ps => by
    show (p ++ ", " ++ joinComma (q :: ps)).data = _
    simp only [String.data_append, List.map, joinCommaL, joinComma_data (q :: ps)]
    rfl

theorem infix_append_split {α : Type} {l a b : List α} (h : l <:+: a ++ b) :
    l <:+: a ∨ l <:+: b ∨
      ∃ l₁ l₂, l = l₁ ++ l₂ ∧ l₁ ≠ [] ∧ l₂ ≠ [] ∧ l₁ <:+ a ∧ l₂ <+: b := by
  obtain ⟨s, t, hst⟩ := h
  rw [List.append_assoc] at hst
  rcases List.append_eq_append_iff.mp hst with ⟨w, hw1, hw2⟩ | ⟨w, hw1, hw2⟩
  · rcases List.append_eq_append_iff.mp hw2 with ⟨v, hv1, hv2⟩ | ⟨v, hv1, hv2⟩
    · exact Or.inl ⟨s, v, by rw [hw1, hv1, List.append_assoc]⟩
    · by_cases hw0 : w = []
      · subst hw0
        simp only [List.nil_append] at hv1
        exact Or.inr (Or.inl ⟨[], t, by simp [← hv1, hv2]⟩)
      · by_cases hv0 : v = []
        · subst hv0
          rw [List.append_nil] at hv1
          exact Or.inl ⟨s, [], by simp [hw1, hv1]⟩
        · exact Or.inr (Or.inr ⟨w, v, hv1, hw0, hv0, ⟨s, hw1.symm⟩, ⟨t, hv2.symm⟩⟩)
  · exact Or.inr (Or.inl ⟨w, t, by rw [hw2, List.append_assoc]⟩)

theorem suffix_append_split {α : Type} {l a b : List α} (h : l <:+ a ++ b) :
    l <:+ b ∨ ∃ l₁, l = l₁ ++ b ∧ l₁ <:+ a := by
  obtain ⟨s, hs⟩ := h
  rcases List.append_eq_append_iff.mp hs with ⟨w, hw1, hw2⟩ | ⟨w, hw1, hw2⟩
  · exact Or.inr ⟨w, hw2, ⟨s, hw1.symm⟩⟩
  · exact Or.inl ⟨w, hw2.symm⟩

theorem suffix_sepL {l : List Char} (h : l <:+ sepL) :
    l = [] ∨ l = [' '] ∨ l = [',', ' '] := by
  obtain ⟨s, hs⟩ := h
  rcases s with _ | ⟨c, _ | ⟨d, s'⟩⟩
  · right; right; simpa using hs
  · simp only [List.cons_append, List.nil_append, sepL] at hs
    injection hs with h1 h2
    right; left; exact h2
  · simp only [List.cons_append, sepL] at hs
    injection hs with h1 h2
    injection h2 with h3 h4
    left
    rcases List.append_eq_nil.mp h4 with ⟨-, h5⟩
    exact h5

theorem prefix_comma_head {l : List Char} (h : [','] <+: l) : l.head? = some ',' := by
  obtain ⟨t, ht⟩ := h
  rw [← ht]
  rfl

/-- All fragments handed to the join are non-empty and comma-free. -/
def GoodParts (ps : List (List Char)) : Prop := ∀ p ∈ ps, p ≠ [] ∧ ',' ∉ p

theorem joinCommaL_head {p : List Char} (ps : List (List Char)) (hp : p ≠ []) :
    (joinCommaL (p :: ps)).head? = p.head? := by
  obtain ⟨c, p', rfl⟩ := List.exists_cons_of_ne_nil hp
  cases ps with
  | nil => rfl
  | cons q ps' => simp [joinCommaL]

theorem joinCommaL_head_ne_comma {ps : List (List Char)} (h : GoodParts ps) :
    (joinCommaL ps).head? ≠ some ',' := by
  cases ps with
  | nil => simp [joinCommaL]
  | cons p ps' =>
    have hp := h p (List.mem_cons_self p ps')
    rw [joinCommaL_head ps' hp.1]
    obtain ⟨c, p', rfl⟩ := List.exists_cons_of_ne_nil hp.1
    simp only [List.head?_cons]
    intro hc
    injection hc with hc
    apply hp.2
    rw [← hc]
    exact List.mem_cons_self c p'

theorem joinCommaL_ne_nil {p : List Char} (ps : List (List Char)) (hp : p ≠ []) :
    joinCommaL (p :: ps) ≠ [] := by
  cases ps with
  | nil => simpa [joinCommaL] using hp
  | cons q ps' => simp [joinCommaL, sepL]

theorem joinCommaL_no_csc :
    ∀ ps, GoodParts ps → ¬ ([',', ' ', ','] <:+: joinCommaL ps)
  | [], _, h => by
    have := h.length_le
    simp [joinCommaL] at this
  | [p], hg, h => (hg p (by simp)).2 (h.subset (by simp))
  | p :: q :: ps, hg, h => by
    have hgrest : GoodParts (q :: ps) := fun r hr => hg r (List.mem_cons_of_mem _ hr)
    have hp := hg p (List.mem_cons_self p _)
    have hj : joinCommaL (p :: q :: ps) = p ++ (sepL ++ joinCommaL (q :: ps)) := by
      simp [joinCommaL, List.append_assoc]
    rw [hj] at h
    rcases infix_append_split h with h1 | h1 | ⟨l₁, l₂, heq, hne₁, -, hsuf, -⟩
    · exact hp.2 (h1.subset (by simp))
    · rcases infix_append_split h1 with h2 | h2 | ⟨m₁, m₂, meq, mne₁, -, msuf, mpre⟩
      · have := h2.length_le
        simp [sepL] at this
      · exact joinCommaL_no_csc (q :: ps) hgrest h2
      · rcases suffix_sepL msuf with rfl | rfl | rfl
        · exact mne₁ rfl
        · injection meq with hchar _
          exact absurd hchar (by decide)
        · have hm2 : [','] = m₂ := by simpa [sepL] using meq
          subst hm2
          exact joinCommaL_head_ne_comma hgrest (prefix_comma_head mpre)
    · obtain ⟨c, l₁', rfl⟩ := List.exists_cons_of_ne_nil hne₁
      injection heq with hc _
      apply hp.2
      apply hsuf.subset
      rw [← hc]
      exact List.mem_cons_self _ _

theorem joinCommaL_no_leading {ps : List (List Char)} (h : GoodParts ps) :
    ¬ (sepL <+: joinCommaL ps) := by
  intro hpre
  apply joinCommaL_head_ne_comma h
  obtain ⟨t, ht⟩ := hpre
  rw [← ht]
  rfl

theorem joinCommaL_no_trailing :
    ∀ ps, GoodParts ps → ¬ (sepL <:+ joinCommaL ps)
  | [], _, h => by
    obtain ⟨s, hs⟩ := h
    simp [joinCommaL, sepL] at hs
  | [p], hg, h => (hg p (by simp)).2 (h.subset (by simp [sepL]))
  | p :: q :: ps, hg, h => by
    have hgrest : GoodParts (q :: ps) := fun r hr => hg r (List.mem_cons_of_mem _ hr)
    have hq := hg q (by simp)
    have hjne := joinCommaL_ne_nil ps hq.1
    have hj : joinCommaL (p :: q :: ps) = p ++ (sepL ++ joinCommaL (q :: ps)) := by
      simp [joinCommaL, List.append_assoc]
    rw [hj] at h
    rcases suffix_append_split h with h1 | ⟨l₁, heq, -⟩
    · rcases suffix_append_split h1 with h2 | ⟨m₁, meq, msuf⟩
      · exact joinCommaL_no_trailing (q :: ps) hgrest h2
      · rcases suffix_sepL msuf with rfl | rfl | rfl
        · apply joinCommaL_head_ne_comma hgrest
          simp only [List.nil_append] at meq
          rw [← meq]
          rfl
        · injection meq with hchar _
          exact absurd hchar (by decide)
        · have hlen := congrArg List.length meq
          rw [List.length_append] at hlen
          simp only [sepL, List.length_cons, List.length_nil] at hlen
          have hj0 : (joinCommaL (q :: ps)).length = 0 := by omega
          exact hjne (List.length_eq_zero.mp hj0)
    · have hlen := congrArg List.length heq
      rw [List.length_append, List.length_append] at hlen
      simp only [sepL, List.length_cons, List.length_nil] at hlen
      have hj0 : (joinCommaL (q :: ps)).length = 0 := by omega
      exact hjne (List.length_eq_zero.mp hj0)

theorem mem_joinCommaL :
    ∀ (ps : List (List Char)) (p : List Char), p ∈ ps → p <:+: joinCommaL ps
  | [], p, hp => absurd hp (by simp)
  | [q], p, hp => by
    have hpq : p = q := by simpa using hp
    subst hpq
    exact List.infix_refl _
  | q :: r :: ps, p, hp => by
    rcases List.mem_cons.mp hp with rfl | hp'
    · exact ⟨[], sepL ++ joinCommaL (r :: ps), by simp [joinCommaL, List.append_assoc]⟩
    · obtain ⟨s, t, hst⟩ := mem_joinCommaL (r :: ps) p hp'
      refine ⟨(q ++ sepL) ++ s, t, ?_⟩
      have hjj : joinCommaL (q :: r :: ps) = q ++ sepL ++ joinCommaL (r :: ps) := rfl
      rw [hjj, ← hst]
      simp [List.append_assoc]

/-! ### Properties of the composer's fragment list -/

theorem data_ne_nil {s : String} (h : s ≠ "") : s.data ≠ [] := by
  intro hd
  exact h (String.ext hd)

theorem joined_field_ne_empty (a b : String) : a ++ " " ++ b ≠ "" := by
  intro h
  have hlen := congrArg String.length h
  rw [String.length_append, String.length_append] at hlen
  have hsp : (" " : String).length = 1 := rfl
  have h0 : ("" : String).length = 0 := rfl
  rw [hsp, h0] at hlen
  omega

theorem comma_not_mem_joined {a b : String} (ha : ',' ∉ a.data) (hb : ',' ∉ b.data) :
    ',' ∉ (a ++ " " ++ b).data := by
  intro h
  rw [String.data_append, String.data_append] at h
  rcases List.mem_append.mp h with h' | h'
  · rcases List.mem_append.mp h' with h'' | h''
    · exact ha h''
    · have hsp : (" " : String).data = [' '] := rfl
      rw [hsp, List.mem_singleton] at h''
      exact absurd h'' (by decide)
  · exact hb h'

theorem mem_address_parts_ne_empty :
    ∀ (l : LocationRequest) (p : String), p ∈ address_parts l → p ≠ "" := by
  intro l p hp
  rw [address_parts] at hp
  rcases List.mem_append.mp hp with hp' | hcountry
  · rcases List.mem_append.mp hp' with hp'' | hpc
    · rcases List.mem_append.mp hp'' with hhouse | hlocat
      · rw [housePart] at hhouse
        split_ifs at hhouse with h1 h2 h3
        · rw [List.mem_singleton] at hhouse
          exact hhouse ▸ joined_field_ne_empty _ _
        · rw [List.mem_singleton] at hhouse
          exact hhouse ▸ h2
        · rw [List.mem_singleton] at hhouse
          exact hhouse ▸ h3
        · exact absurd hhouse (by simp)
      · rw [locatPart] at hlocat
        split_ifs at hlocat with h1
        · rw [List.mem_singleton] at hlocat
          exact hlocat ▸ h1
        · exact absurd hlocat (by simp)
    · rw [postalCityPart] at hpc
      split_ifs at hpc with h1 h2
      · rw [List.mem_singleton] at hpc
        exact hpc ▸ joined_field_ne_empty _ _
      · rw [List.mem_singleton] at hpc
        exact hpc ▸ h2
      · exact absurd hpc (by simp)
  · rw [countryPart] at hcountry
    split_ifs at hcountry with h1
    · rw [List.mem_singleton] at hcountry
      exact hcountry ▸ h1
    · exact absurd hcountry (by simp)

theorem mem_address_parts_comma_free {l : LocationRequest} {p : String}
    (hcf : ∀ f ∈ [l.HSNMR, l.STRAS, l.LOCAT, l.PSTLZ, l.ORT01, l.LAND1], ',' ∉ f.data)
    (hp : p ∈ address_parts l) : ',' ∉ p.data := by
  have c1 : ',' ∉ l.HSNMR.data := hcf l.HSNMR (by simp)
  have c2 : ',' ∉ l.STRAS.data := hcf l.STRAS (by simp)
  have c3 : ',' ∉ l.LOCAT.data := hcf l.LOCAT (by simp)
  have c4 : ',' ∉ l.PSTLZ.data := hcf l.PSTLZ (by simp)
  have c5 : ',' ∉ l.ORT01.data := hcf l.ORT01 (by simp)
  have c6 : ',' ∉ l.LAND1.data := hcf l.LAND1 (by simp)
  rw [address_parts] at hp
  rcases List.mem_append.mp hp with hp' | hcountry
  · rcases List.mem_append.mp hp' with hp'' | hpc
    · rcases List.mem_append.mp hp'' with hhouse | hlocat
      · rw [housePart] at hhouse
        split_ifs at hhouse with h1 h2 h3
        · rw [List.mem_singleton] at hhouse
          exact hhouse ▸ comma_not_mem_joined c1 c2
        · rw [List.mem_singleton] at hhouse
          exact hhouse ▸ c2
        · rw [List.mem_singleton] at hhouse
          exact hhouse ▸ c1
        · exact absurd hhouse (by simp)
      · rw [locatPart] at hlocat
        split_ifs at hlocat with h1
        · rw [List.mem_singleton] at hlocat
          exact hlocat ▸ c3
        · exact absurd hlocat (by simp)
    · rw [postalCityPart] at hpc
      split_ifs at hpc with h1 h2
      · rw [List.mem_singleton] at hpc
        exact hpc ▸ comma_not_mem_joined c4 c5
      · rw [List.mem_singleton] at hpc
        exact hpc ▸ c5
      · exact absurd hpc (by simp)
  · rw [countryPart] at hcountry
    split_ifs at hcountry with h1
    · rw [List.mem_singleton] at hcountry
      exact hcountry ▸ c6
    · exact absurd hcountry (by simp)

theorem address_parts_good {l : LocationRequest}
    (hcf : ∀ f ∈ [l.HSNMR, l.STRAS, l.LOCAT, l.PSTLZ, l.ORT01, l.LAND1], ',' ∉ f.data) :
    GoodParts ((address_parts l).map String.data) := by
  intro q hq
  obtain ⟨p, hp, rfl⟩ := List.mem_map.mp hq
  exact ⟨data_ne_nil (mem_address_parts_ne_empty l p hp),
         mem_address_parts_comma_free hcf hp⟩

theorem mem_address_parts_infix {l : LocationRequest} {p : String}
    (hp : p ∈ address_parts l) : p.data <:+: (compose_address l).data := by
  rw [compose_address, joinComma_data]
  exact mem_joinCommaL _ _ (List.mem_map_of_mem String.data hp)

/-! ### Claim C1 -/

/-- C1 (counterexample): the claim asserts the postal-code/city fragment is
"postal-code city" *or whichever of the two is present*, and in particular
that a Location with non-empty postal code and empty city yields a composed
string containing the postal code. The source's postal-code/city block has
no `elif PSTLZ` branch, so for the Location with `PSTLZ = "75001"` and all
other fields empty, `compose_address` returns `""`, which does not contain
`"75001"`. -/
theorem C1_counterexample :
    compose_address ⟨"", "", "", "75001", "", ""⟩ = "" ∧
    ¬ ("75001".data <:+: (compose_address ⟨"", "", "", "75001", "", ""⟩).data) :=
  ⟨by decide, by decide⟩

/-- C1 (amended): the composer joins, with `", "`, the fragments in source
order — "house-number street" (or whichever of the two is present), then
the complement if present, then "postal-code city" **only when both are
present** or the city alone when only the city is present (a postal code
with an empty city is dropped), then the country if present; in particular,
for every Location whose postal code and city are both non-empty the
composed string contains the postal code. -/
theorem C1_amended (l : LocationRequest) :
    address_parts l = housePart l ++ locatPart l ++ postalCityPart l ++ countryPart l ∧
    (l.ORT01 = "" → postalCityPart l = []) ∧
    (l.PSTLZ ≠ "" → l.ORT01 ≠ "" → l.PSTLZ.data <:+: (compose_address l).data) := by
  refine ⟨rfl, ?_, ?_⟩
  · intro h
    simp [postalCityPart, h]
  · intro h1 h2
    have hmem : (l.PSTLZ ++ " " ++ l.ORT01) ∈ address_parts l := by
      rw [address_parts]
      refine List.mem_append.mpr (Or.inl (List.mem_append.mpr (Or.inr ?_)))
      rw [postalCityPart, if_pos ⟨h1, h2⟩]
      exact List.mem_singleton.mpr rfl
    have hinf := mem_address_parts_infix hmem
    have hpre : l.PSTLZ.data <+: (l.PSTLZ ++ " " ++ l.ORT01).data := by
      rw [String.data_append, String.data_append, List.append_assoc]
      exact List.prefix_append _ _
    exact hpre.isInfix.trans hinf

/-- C1 amended, witnessed at concrete inputs: with the city empty the
postal-code fragment is dropped, and with both postal code and city present
the composed string contains the postal code. -/
theorem C1_amended_witness :
    postalCityPart ⟨"", "", "", "75001", "", ""⟩ = [] ∧
    "75001".data <:+: (compose_address ⟨"", "", "", "75001", "Paris", ""⟩).data :=
  ⟨(C1_amended ⟨"", "", "", "75001", "", ""⟩).2.1 rfl,
   (C1_amended ⟨"", "", "", "75001", "Paris", ""⟩).2.2 (by decide) (by decide)⟩

/-! ### Claim C9 -/

/-- C9 (counterexample): the claim asserts the composed address never
contains two adjacent separators (`", , "`). A field value may itself
contain that text, and the composer echoes field values verbatim: for the
Location whose street is `"a, , b"` the composed address is exactly
`"a, , b"`, which contains `", , "`. -/
theorem C9_counterexample :
    compose_address ⟨"", "a, , b", "", "", "", ""⟩ = "a, , b" ∧
    ", , ".data <:+: (compose_address ⟨"", "a, , b", "", "", "", ""⟩).data :=
  ⟨by decide, by decide⟩

/-- C9 (amended): the composer never emits a fragment for an empty field
(every fragment of `address_parts` is non-empty, and all six fields empty
give the empty string), and for every Location none of whose field values
itself contains a comma the composed string contains no `", , "` and has
no leading or trailing `", "`. -/
theorem C9_amended :
    compose_address ⟨"", "", "", "", "", ""⟩ = "" ∧
    (∀ (l : LocationRequest) (p : String), p ∈ address_parts l → p ≠ "") ∧
    ∀ l : LocationRequest,
      (∀ f ∈ [l.HSNMR, l.STRAS, l.LOCAT, l.PSTLZ, l.ORT01, l.LAND1], ',' ∉ f.data) →
      ¬ (", , ".data <:+: (compose_address l).data) ∧
      ¬ (", ".data <+: (compose_address l).data) ∧
      ¬ (", ".data <:+ (compose_address l).data) := by
  refine ⟨by decide, mem_address_parts_ne_empty, ?_⟩
  intro l hcf
  have hgood := address_parts_good hcf
  have hdata : (compose_address l).data = joinCommaL ((address_parts l).map String.data) := by
    rw [compose_address, joinComma_data]
  have hsep : (", " : String).data = sepL := rfl
  refine ⟨?_, ?_, ?_⟩
  · intro h
    rw [hdata] at h
    apply joinCommaL_no_csc _ hgood
    have hpre : [',', ' ', ','] <+: (", , " : String).data := ⟨[' '], rfl⟩
    exact hpre.isInfix.trans h
  · intro h
    rw [hdata, hsep] at h
    exact joinCommaL_no_leading hgood h
  · intro h
    rw [hdata, hsep] at h
    exact joinCommaL_no_trailing _ hgood h

/-- C9 amended, witnessed at a concrete comma-free Location. -/
theorem C9_amended_witness :
    ¬ (", , ".data <:+: (compose_address ⟨"12", "rue X", "", "75001", "Paris", "FR"⟩).data) ∧
    ¬ (", ".data <+: (compose_address ⟨"12", "rue X", "", "75001", "Paris", "FR"⟩).data) ∧
    ¬ (", ".data <:+ (compose_address ⟨"12", "rue X", "", "75001", "Paris", "FR"⟩).data) :=
  C9_amended.2.2 ⟨"12", "rue X", "", "75001", "Paris", "FR"⟩ (by decide)

/-! ### Claim C2 -/

/-- Characterisation of banker's rounding: the result is within a half of
the argument, and on an exact tie the result is even. -/
theorem roundHalfEven_close (x : ℚ) :
    |(roundHalfEven x : ℚ) - x| ≤ 1/2 ∧
    (|(roundHalfEven x : ℚ) - x| = 1/2 → roundHalfEven x % 2 = 0) := by
  have hfr : 0 ≤ Int.fract x := Int.fract_nonneg x
  have hfr1 : Int.fract x < 1 := Int.fract_lt_one x
  have hfl : (⌊x⌋ : ℚ) = x - Int.fract x := by
    rw [Int.fract]
    ring
  rw [roundHalfEven]
  split_ifs with h1 h2 h3
  · have h0 : (⌊x⌋ : ℚ) - x = -(Int.fract x) := by rw [hfl]; ring
    rw [h0, abs_neg, abs_of_nonneg hfr]
    exact ⟨by linarith, fun he => absurd he (ne_of_lt h1)⟩
  · have h0 : ((⌊x⌋ + 1 : ℤ) : ℚ) - x = 1 - Int.fract x := by push_cast; rw [hfl]; ring
    rw [h0, abs_of_nonneg (by linarith)]
    exact ⟨by linarith, fun he => by exfalso; linarith⟩
  · have hf : Int.fract x = 1/2 := le_antisymm (not_lt.mp h2) (not_lt.mp h1)
    have h0 : (⌊x⌋ : ℚ) - x = -(1/2) := by rw [hfl, hf]; ring
    rw [h0, abs_neg, abs_of_nonneg (by norm_num : (0:ℚ) ≤ 1/2)]
    exact ⟨le_refl _, fun _ => h3⟩
  · have hf : Int.fract x = 1/2 := le_antisymm (not_lt.mp h2) (not_lt.mp h1)
    have h0 : ((⌊x⌋ + 1 : ℤ) : ℚ) - x = 1/2 := by push_cast; rw [hfl, hf]; ring
    rw [h0, abs_of_nonneg (by norm_num : (0:ℚ) ≤ 1/2)]
    refine ⟨le_refl _, fun _ => ?_⟩
    omega

/-- C2 (counterexample): the claim says the meters-to-kilometers conversion
rounds half-up at 2 decimals. For a provider distance of exactly 125 meters
(0.125 km, a dyadic rational, hence a value the binary double represents
exactly), Python's `round` sends the tie to the even hundredth: the code
returns 0.12 km, while half-up rounding gives 0.13 km. -/
theorem C2_counterexample :
    calculate_distance (fun _ => RouteProviderResult.json [125]) (0, 0) (0, 0) =
      some (12/100) ∧
    roundHalfUp2 ((125 : ℚ)/1000) = 13/100 ∧
    ((12 : ℚ)/100) ≠ 13/100 := by
  refine ⟨?_, ?_, by norm_num⟩
  · norm_num [calculate_distance, pythonRound2, roundHalfEven, Int.fract]
  · norm_num [roundHalfUp2]

/-- C2 (amended): the Routing Client converts the first route's summary
distance from meters to kilometers rounded to 2 decimals with Python's
`round`, i.e. round-half-to-even: the returned number of hundredths is
within half a hundredth of m/10, and an exact tie lands on an even count
of hundredths — so 125 meters yields 0.12 km, not 0.13 km. (In the running
system 12345 meters does yield 12.35 km, but only because the IEEE-754
double nearest 12.345 lies strictly above it; that representation effect
is outside this exact-rational model.) -/
theorem C2_amended (m : ℚ) (s e : ℚ × ℚ) :
    calculate_distance (fun _ => RouteProviderResult.json [m]) s e =
      some ((roundHalfEven (m / 10) : ℚ) / 100) ∧
    |(roundHalfEven (m / 10) : ℚ) - m / 10| ≤ 1/2 ∧
    (|(roundHalfEven (m / 10) : ℚ) - m / 10| = 1/2 → roundHalfEven (m / 10) % 2 = 0) := by
  refine ⟨?_, (roundHalfEven_close (m / 10)).1, (roundHalfEven_close (m / 10)).2⟩
  have harg : m / 1000 * 100 = m / 10 := by ring
  simp only [calculate_distance, pythonRound2]
  rw [harg]

/-- C2 amended, witnessed at 125 meters: the code returns 12 hundredths of
a kilometer, an even tie result. -/
theorem C2_amended_witness :
    calculate_distance (fun _ => RouteProviderResult.json [125]) (0, 0) (0, 0) =
      some ((roundHalfEven ((125 : ℚ) / 10) : ℚ) / 100) ∧
    roundHalfEven ((125 : ℚ) / 10) % 2 = 0 :=
  ⟨(C2_amended 125 (0, 0) (0, 0)).1,
   (C2_amended 125 (0, 0) (0, 0)).2.2 (by norm_num [roundHalfEven, Int.fract])⟩

/-! ### Claim C5 -/

/-- C5: the outbound route body lists each coordinate pair in (longitude,
latitude) order — the reverse of the `Coordinates` entity's (latitude,
longitude) order — for both origin and destination; moreover the result of
`calculate_distance` depends on the provider only through its response to
exactly that reversed body. -/
theorem C5_coordinate_order (o d : Coordinates) :
    routeRequestCoordinates (o.latitude, o.longitude) (d.latitude, d.longitude) =
      [[o.longitude, o.latitude], [d.longitude, d.latitude]] ∧
    ∀ (p₁ p₂ : List (List ℚ) → RouteProviderResult) (s e : ℚ × ℚ),
      p₁ (routeRequestCoordinates s e) = p₂ (routeRequestCoordinates s e) →
      calculate_distance p₁ s e = calculate_distance p₂ s e := by
  refine ⟨rfl, ?_⟩
  intro p₁ p₂ s e h
  rw [calculate_distance, calculate_distance, h]

/-- C5, witnessed at concrete coordinates: a provider answering only at the
reversed body `[[2, 1], [4, 3]]` behaves like the constant provider. -/
theorem C5_witness :
    routeRequestCoordinates ((1 : ℚ), 2) ((3 : ℚ), 4) = [[2, 1], [4, 3]] ∧
    calculate_distance (fun _ => RouteProviderResult.json [100]) ((1 : ℚ), 2) ((3 : ℚ), 4) =
      calculate_distance
        (fun b => if b = [[2, 1], [4, 3]] then RouteProviderResult.json [100]
                  else RouteProviderResult.malformedBody) ((1 : ℚ), 2) ((3 : ℚ), 4) :=
  ⟨(C5_coordinate_order ⟨1, 2⟩ ⟨3, 4⟩).1,
   (C5_coordinate_order ⟨1, 2⟩ ⟨3, 4⟩).2 _ _ ((1 : ℚ), 2) ((3 : ℚ), 4)
     (by simp [routeRequestCoordinates])⟩

/-! ### Claims C4 and C10 -/

/-- C4: for every provider behaviour — transport error, non-success HTTP
status, malformed payload, empty candidate list — `geocode` returns
NotFound `(none, none)`; and it never throws: for every parser and
provider outcome the `try/except` yields a plain value, namely the body's
value when the body succeeds and `(none, none)` whenever the body raised. -/
theorem C4_geocode_notfound (pyFloat : String → Option ℚ) (msg : String) (code : Nat) :
    geocode pyFloat (.transportError msg) = (none, none) ∧
    geocode pyFloat (.badStatus code) = (none, none) ∧
    geocode pyFloat .malformedBody = (none, none) ∧
    geocode pyFloat (.json []) = (none, none) ∧
    ∀ r : GeoProviderResult,
      (∃ v, geocode_except pyFloat r = .ok v ∧ geocode pyFloat r = v) ∨
      (∃ m, geocode_except pyFloat r = .error m ∧ geocode pyFloat r = (none, none)) := by
  refine ⟨rfl, rfl, rfl, rfl, ?_⟩
  intro r
  cases he : geocode_except pyFloat r with
  | ok v => exact Or.inl ⟨v, rfl, by simp [geocode, he]⟩
  | error m => exact Or.inr ⟨m, rfl, by simp [geocode, he]⟩

/-- C10: the geocode result is all-or-nothing — for every parser and
provider behaviour, one of the two coordinates being absent is equivalent
to the whole result being NotFound `(none, none)`; the orchestrator's
`home_lat is None or home_lon is None` check therefore triggers exactly
when the geocode failed. -/
theorem C10_all_or_nothing (pyFloat : String → Option ℚ) (r : GeoProviderResult) :
    ((geocode pyFloat r).1 = none ∨ (geocode pyFloat r).2 = none) ↔
      geocode pyFloat r = (none, none) := by
  cases r with
  | transportError m => simp [geocode, geocode_except]
  | badStatus c => simp [geocode, geocode_except]
  | malformedBody => simp [geocode, geocode_except]
  | json cs =>
    cases cs with
    | nil => simp [geocode, geocode_except]
    | cons c rest =>
      rcases hla : pyFloat c.lat with _ | la
      · simp [geocode, geocode_except, hla]
      · rcases hlo : pyFloat c.lon with _ | lo
        · simp [geocode, geocode_except, hla, hlo]
        · simp [geocode, geocode_except, hla, hlo, Prod.ext_iff]

/-! ### Claim C3 -/

/-- C3: the orchestrator short-circuits on the first failing stage. A home
geocode returning NotFound yields the error envelope "Could not geocode
home address: <address>" (carrying the composed home address) with only the
home geocode call issued; an office geocode failure yields "Could not
geocode office address: <address>" with no route call; a routing failure
yields exactly "Could not calculate route between addresses". -/
theorem C3_short_circuit (geo : String → Option ℚ × Option ℚ)
    (route : ℚ × ℚ → ℚ × ℚ → Option ℚ) (now : String) (req : RouteRequest) :
    (geo (compose_address req.home) = (none, none) →
      (calculate_route geo route now (.valid req)).response.error =
        some ("Could not geocode home address: " ++ compose_address req.home) ∧
      (calculate_route geo route now (.valid req)).calls =
        [.geocodeCall (compose_address req.home)]) ∧
    (∀ hla hlo : ℚ, geo (compose_address req.home) = (some hla, some hlo) →
      geo (compose_address req.office) = (none, none) →
      (calculate_route geo route now (.valid req)).response.error =
        some ("Could not geocode office address: " ++ compose_address req.office) ∧
      (calculate_route geo route now (.valid req)).calls =
        [.geocodeCall (compose_address req.home),
         .geocodeCall (compose_address req.office)]) ∧
    (∀ hla hlo ola olo : ℚ, geo (compose_address req.home) = (some hla, some hlo) →
      geo (compose_address req.office) = (some ola, some olo) →
      route (hla, hlo) (ola, olo) = none →
      (calculate_route geo route now (.valid req)).response.error =
        some "Could not calculate route between addresses") := by
  refine ⟨?_, ?_, ?_⟩
  · intro h
    constructor <;> simp [calculate_route, h]
  · intro hla hlo h1 h2
    constructor <;> simp [calculate_route, h1, h2]
  · intro hla hlo ola olo h1 h2 h3
    simp [calculate_route, h1, h2, h3]

/-- C3, witnessed with concrete oracles and a concrete request whose home
address composes to "A" and office address to "B". -/
theorem C3_witness :
    ((calculate_route (fun _ => ((none : Option ℚ), (none : Option ℚ)))
        (fun _ _ => none) "t"
        (.valid ⟨⟨"", "", "", "", "A", ""⟩, ⟨"", "", "", "", "B", ""⟩⟩)).response.error =
      some ("Could not geocode home address: " ++
        compose_address ⟨"", "", "", "", "A", ""⟩) ∧
     (calculate_route (fun _ => ((none : Option ℚ), (none : Option ℚ)))
        (fun _ _ => none) "t"
        (.valid ⟨⟨"", "", "", "", "A", ""⟩, ⟨"", "", "", "", "B", ""⟩⟩)).calls =
      [.geocodeCall (compose_address ⟨"", "", "", "", "A", ""⟩)]) ∧
    ((calculate_route
        (fun a => if a = "B" then ((none : Option ℚ), (none : Option ℚ))
                  else (some 1, some 2))
        (fun _ _ => none) "t"
        (.valid ⟨⟨"", "", "", "", "A", ""⟩, ⟨"", "", "", "", "B", ""⟩⟩)).response.error =
      some ("Could not geocode office address: " ++
        compose_address ⟨"", "", "", "", "B", ""⟩) ∧
     (calculate_route
        (fun a => if a = "B" then ((none : Option ℚ), (none : Option ℚ))
                  else (some 1, some 2))
        (fun _ _ => none) "t"
        (.valid ⟨⟨"", "", "", "", "A", ""⟩, ⟨"", "", "", "", "B", ""⟩⟩)).calls =
      [.geocodeCall (compose_address ⟨"", "", "", "", "A", ""⟩),
       .geocodeCall (compose_address ⟨"", "", "", "", "B", ""⟩)]) ∧
    (calculate_route (fun _ => (some (1 : ℚ), some (2 : ℚ)))
        (fun _ _ => none) "t"
        (.valid ⟨⟨"", "", "", "", "A", ""⟩, ⟨"", "", "", "", "B", ""⟩⟩)).response.error =
      some "Could not calculate route between addresses" :=
  ⟨(C3_short_circuit _ _ "t" _).1 rfl,
   (C3_short_circuit _ _ "t" _).2.1 1 2 rfl rfl,
   (C3_short_circuit _ _ "t" _).2.2 1 2 1 2 rfl rfl rfl⟩

/-! ### Claims C6 and C7 -/

/-- C6: every envelope the handler returns, on every path — success,
validation failure, geocoding failure, routing failure, unexpected
failure — populates exactly one of data and error: either the status is
"success" with data present and a null error, or the status is "error"
with an error message present and null data. -/
theorem C6_envelope_invariant (geo : String → Option ℚ × Option ℚ)
    (route : ℚ × ℚ → ℚ × ℚ → Option ℚ) (now : String) (body : InboundBody)
    (e : PyExc) :
    (((calculate_route geo route now body).response.status = "success" ∧
      (calculate_route geo route now body).response.error = none ∧
      ((calculate_route geo route now body).response.data).isSome = true) ∨
     ((calculate_route geo route now body).response.status = "error" ∧
      ((calculate_route geo route now body).response.error).isSome = true ∧
      (calculate_route geo route now body).response.data = none)) ∧
    ((handle_exception now e).1.status = "error" ∧
     ((handle_exception now e).1.error).isSome = true ∧
     (handle_exception now e).1.data = none) := by
  constructor
  · cases body with
    | noData => right; exact ⟨rfl, rfl, rfl⟩
    | invalidShape err => right; exact ⟨rfl, rfl, rfl⟩
    | valid req =>
      rcases hg1 : geo (compose_address req.home) with ⟨_ | hla, _ | hlo⟩
      · right; constructor <;> simp [calculate_route, hg1]
      · right; constructor <;> simp [calculate_route, hg1]
      · right; constructor <;> simp [calculate_route, hg1]
      · rcases hg2 : geo (compose_address req.office) with ⟨_ | ola, _ | olo⟩
        · right; constructor <;> simp [calculate_route, hg1, hg2]
        · right; constructor <;> simp [calculate_route, hg1, hg2]
        · right; constructor <;> simp [calculate_route, hg1, hg2]
        · rcases hr : route (hla, hlo) (ola, olo) with _ | d
          · right; constructor <;> simp [calculate_route, hg1, hg2, hr]
          · left; refine ⟨?_, ?_, ?_⟩ <;> simp [calculate_route, hg1, hg2, hr]
  · cases e with
    | valueError m => exact ⟨rfl, rfl, rfl⟩
    | otherExc t m => exact ⟨rfl, rfl, rfl⟩

/-- C7: a missing/unusable body and a body failing Location-record
validation each produce an InvalidInput error envelope, and no outbound
network call — neither geocoding nor routing — is issued. -/
theorem C7_invalid_input (geo : String → Option ℚ × Option ℚ)
    (route : ℚ × ℚ → ℚ × ℚ → Option ℚ) (now errMsg : String) :
    (calculate_route geo route now .noData).calls = [] ∧
    (calculate_route geo route now .noData).response.status = "error" ∧
    (calculate_route geo route now .noData).response.error =
      some "No JSON data provided" ∧
    (calculate_route geo route now (.invalidShape errMsg)).calls = [] ∧
    (calculate_route geo route now (.invalidShape errMsg)).response.status = "error" ∧
    (calculate_route geo route now (.invalidShape errMsg)).response.error =
      some ("Invalid request data: " ++ errMsg) :=
  ⟨rfl, rfl, rfl, rfl, rfl, rfl⟩

/-! ### Claim C8 -/

/-- C8 (counterexample): the claim says every exception other than the
three anticipated stage failures (or validation) is reported as exactly
"An unexpected error occurred". The handler's `except ValueError` clause
dispatches on the exception's *type* and returns `str(e)` for any
ValueError: a ValueError carrying "boom" — which is none of the three
anticipated stage failures — is reported as "boom". -/
theorem C8_counterexample :
    ¬ anticipatedStageFailure (.valueError "boom") ∧
    (handle_exception "t" (.valueError "boom")).1.error = some "boom" ∧
    ("boom" : String) ≠ "An unexpected error occurred" := by
  refine ⟨?_, rfl, by decide⟩
  intro h
  simp only [anticipatedStageFailure] at h
  rcases h with ⟨a, ha⟩ | ⟨a, ha⟩ | ha
  · have hlen := congrArg String.length ha
    rw [String.length_append] at hlen
    have h4 : ("boom" : String).length = 4 := rfl
    have h32 : ("Could not geocode home address: " : String).length = 32 := rfl
    rw [h4, h32] at hlen
    omega
  · have hlen := congrArg String.length ha
    rw [String.length_append] at hlen
    have h4 : ("boom" : String).length = 4 := rfl
    have h34 : ("Could not geocode office address: " : String).length = 34 := rfl
    rw [h4, h34] at hlen
    omega
  · exact absurd ha (by decide)

/-- C8 (amended): the catch-all dispatch is by exception type, not by
origin: every exception that is not a ValueError is mapped to exactly
"An unexpected error occurred", with null data and HTTP 500; any
ValueError — an anticipated stage failure or not — instead surfaces its
own `str(e)` message with HTTP 400. -/
theorem C8_amended (now excType m : String) :
    (handle_exception now (.otherExc excType m)).1.error =
      some "An unexpected error occurred" ∧
    (handle_exception now (.otherExc excType m)).1.data = none ∧
    (handle_exception now (.otherExc excType m)).2 = 500 ∧
    (handle_exception now (.valueError m)).1.error = some m ∧
    (handle_exception now (.valueError m)).2 = 400 :=
  ⟨rfl, rfl, rfl, rfl, rfl⟩
